import Mathlib

/-!
Verification development for the dependency core of a package registry
(src/dependency.rs): the dependency record model, the batch validator
add_dependencies, the row-to-record read paths, and the three encoders.
The external semantic-version parser is modelled as a black box.
-/

namespace CratesIo

/-- The dependency kind enumeration, src/dependency.rs lines 45-52. -/
inductive Kind where
  | Normal
  | Build
  | Dev
deriving DecidableEq

/-- The storage integer code of a kind: the Rust cast of the enum to i32. -/
def Kind.code : Kind → Int
  | .Normal => 0
  | .Build => 1
  | .Dev => 2

/-- The fields of a crate used by add_dependencies: internal id and stored name. -/
structure Crate where
  id : Int
  name : String
deriving DecidableEq

/-- Modelled from the spec: the external semantic-version Requirement Parser
(spec section 2), consumed as a black box that parses requirement strings,
renders a requirement back to canonical string form, and has a distinguished
unconstrained wildcard requirement, the result of parsing the one-character
asterisk string. -/
structure Semver (Req : Type) where
  parse : String → Option Req
  toString : Req → String
  star : Req

variable {Req : Type}

/-- Modelled from the spec: a client-submitted dependency declaration
(upload::CrateDependency), carrying a package-name string, a parsed
requirement, optional and default-features flags, a feature-name sequence, an
optional target-platform string, and an optional kind (spec section 4.2). -/
structure CrateDependency (Req : Type) where
  optional : Bool
  default_features : Bool
  name : String
  features : List String
  version_req : Req
  target : Option String
  kind : Option Kind
deriving DecidableEq

/-- The Dependency record, src/dependency.rs lines 13-23. -/
structure Dependency (Req : Type) where
  id : Int
  version_id : Int
  crate_id : Int
  req : Req
  optional : Bool
  default_features : Bool
  features : List String
  target : Option String
  kind : Kind
deriving DecidableEq

/-- The ReverseDependency record, lines 25-29: a dependency plus the name and
download count of the owning crate. -/
structure ReverseDependency (Req : Type) where
  dependency : Dependency Req
  crate_name : String
  crate_downloads : Int
deriving DecidableEq

/-- The EncodableDependency API shape, lines 31-43. -/
structure EncodableDependency where
  id : Int
  version_id : Int
  crate_id : String
  req : String
  optional : Bool
  default_features : Bool
  features : List String
  target : Option String
  kind : Kind
  downloads : Int
deriving DecidableEq

/-- The NewDependency insertable row, lines 54-64. -/
structure NewDependency where
  version_id : Int
  crate_id : Int
  req : String
  optional : Bool
  default_features : Bool
  features : List String
  target : Option String
  kind : Int
deriving DecidableEq

/-- Modelled from the spec: the version-control index shape (git::Dependency)
consumed by the external index writer, with the fields constructed by
git_encode at lines 88-96 (spec section 4.4, index encoding). -/
structure git.Dependency where
  name : String
  req : String
  features : List String
  optional : Bool
  default_features : Bool
  target : Option String
  kind : Option Kind
deriving DecidableEq

/-- Dependency::git_encode, lines 87-97. -/
def Dependency.git_encode (sv : Semver Req) (d : Dependency Req) (crate_name : String) :
    git.Dependency :=
  { name := crate_name
    req := sv.toString d.req
    features := d.features
    optional := d.optional
    default_features := d.default_features
    target := d.target
    kind := some d.kind }

/-- Dependency::encodable, lines 100-113: the API encoding, with the caller
supplying the crate name and an optional downloads figure. -/
def Dependency.encodable (sv : Semver Req) (d : Dependency Req) (crate_name : String)
    (downloads : Option Int) : EncodableDependency :=
  { id := d.id
    version_id := d.version_id
    crate_id := crate_name
    req := sv.toString d.req
    optional := d.optional
    default_features := d.default_features
    features := d.features
    target := d.target
    kind := d.kind
    downloads := downloads.getD 0 }

/-- ReverseDependency::encodable, lines 116-120: delegates to
Dependency::encodable, supplying the owning crate name and downloads. -/
def ReverseDependency.encodable (sv : Semver Req) (r : ReverseDependency Req) :
    EncodableDependency :=
  r.dependency.encodable sv r.crate_name (some r.crate_downloads)

/-- The two human errors produced by add_dependencies: the unknown-crate error
carrying the offending name (line 139) and the constant wildcard-constraint
message (lines 142-146). -/
inductive DepError where
  | unknownCrate (name : String)
  | wildcard
deriving DecidableEq

/-- The per-declaration closure inside add_dependencies, lines 135-158: find
the crate whose exact stored name equals the declared name, reject a wildcard
requirement, and build the NewDependency row, defaulting the kind to Normal. -/
def validateDep [DecidableEq Req] (sv : Semver Req) (crates : List Crate) (version_id : Int)
    (dep : CrateDependency Req) : Except DepError NewDependency :=
  match crates.find? (fun c => dep.name == c.name) with
  | none => Except.error (DepError.unknownCrate dep.name)
  | some krate =>
    if dep.version_req = sv.star then
      Except.error DepError.wildcard
    else
      Except.ok
        { version_id := version_id
          crate_id := krate.id
          req := sv.toString dep.version_req
          kind := (dep.kind.getD Kind.Normal).code
          optional := dep.optional
          default_features := dep.default_features
          features := dep.features
          target := dep.target }

/-- The semantics of collecting an iterator of Results into a Result of a
vector: the first error aborts the whole collection, otherwise all values are
kept in order. -/
def collectResult {ε α : Type} : List (Except ε α) → Except ε (List α)
  | [] => Except.ok []
  | x :: xs =>
    match x with
    | Except.error e => Except.error e
    | Except.ok a =>
      match collectResult xs with
      | Except.error e => Except.error e
      | Except.ok as => Except.ok (a :: as)

/-- The validation portion of add_dependencies, lines 135-160: the
per-declaration validation mapped over the declarations in input order and
collected fail-fast. The crates argument stands for the result of the
canonical-name resolution query at lines 130-133 (a pre-filter supplied by
storage; the final exact-name match happens in validateDep). The bulk insert
at lines 161-162 is modelled separately by persist. -/
def add_dependencies [DecidableEq Req] (sv : Semver Req) (crates : List Crate)
    (deps : List (CrateDependency Req)) (version_id : Int) :
    Except DepError (List NewDependency) :=
  collectResult (deps.map (validateDep sv crates version_id))

/-- The kind-code match in Queryable::build (lines 179-185) and Model::from_row
(lines 199-205): codes 0, 1, 2 decode to Normal, Build, Dev; any other stored
code panics, modelled as none. -/
def decodeKind (n : Int) : Option Kind :=
  if n = 0 then some Kind.Normal
  else if n = 1 then some Kind.Build
  else if n = 2 then some Kind.Dev
  else none

/-- The stored row of Queryable::build (lines 169-171): field i of this
structure is position i of the Rust row tuple. Model::from_row reads the same
fields by column name. -/
structure Row where
  id : Int
  version_id : Int
  crate_id : Int
  req : String
  optional : Bool
  default_features : Bool
  features : List String
  target : Option String
  kind : Int
deriving DecidableEq

/-- Queryable::build, lines 173-186: rebuild a Dependency from a stored row.
The requirement-parse unwrap and the unknown-kind panic are hard faults,
modelled as none. -/
def Dependency.build (sv : Semver Req) (row : Row) : Option (Dependency Req) :=
  match sv.parse row.req with
  | none => none
  | some req =>
    match decodeKind row.kind with
    | none => none
    | some kind =>
      some
        { id := row.id
          version_id := row.version_id
          crate_id := row.crate_id
          req := req
          optional := row.optional
          default_features := row.default_features
          features := row.features
          target := row.target
          kind := kind }

/-- Model::from_row, lines 190-208: the same rebuild logic as Queryable::build,
reading the fields by column name; the requirement-parse unwrap and the
unknown-kind panic are hard faults, modelled as none. -/
def Dependency.from_row (sv : Semver Req) (row : Row) : Option (Dependency Req) :=
  match sv.parse row.req with
  | none => none
  | some req =>
    match decodeKind row.kind with
    | none => none
    | some kind =>
      some
        { id := row.id
          version_id := row.version_id
          crate_id := row.crate_id
          req := req
          optional := row.optional
          default_features := row.default_features
          features := row.features
          target := row.target
          kind := kind }

/-- Modelled from the spec: the storage bulk insert returns full rows, each
carrying a storage-assigned id together with the inserted fields (spec section
4.3, Write direction). -/
def insertRow (nd : NewDependency) (id : Int) : Row :=
  { id := id
    version_id := nd.version_id
    crate_id := nd.crate_id
    req := nd.req
    optional := nd.optional
    default_features := nd.default_features
    features := nd.features
    target := nd.target
    kind := nd.kind }

/-- Collecting a list of optional values: any missing value aborts the whole
collection. -/
def collectOption {α : Type} : List (Option α) → Option (List α)
  | [] => some []
  | x :: xs =>
    match x with
    | none => none
    | some a =>
      match collectOption xs with
      | none => none
      | some as => some (a :: as)

/-- The insert step of add_dependencies (lines 161-162) followed by the
read-back through Queryable::build: each prepared row is stored under a
storage-assigned id and rebuilt into a Dependency. -/
def persist (sv : Semver Req) (nds : List NewDependency) (ids : List Int) :
    Option (List (Dependency Req)) :=
  collectOption ((nds.zip ids).map (fun p => Dependency.build sv (insertRow p.1 p.2)))

/-- Statement predicate: the API encoding of a persisted record, rendered with
the declared name as the caller-supplied crate name and no downloads figure,
reproduces the declaration submitted for it. -/
def roundTrips (sv : Semver Req) (dep : Dependency Req) (d : CrateDependency Req) : Prop :=
  (dep.encodable sv d.name none).crate_id = d.name ∧
  (dep.encodable sv d.name none).req = sv.toString d.version_req ∧
  (dep.encodable sv d.name none).optional = d.optional ∧
  (dep.encodable sv d.name none).default_features = d.default_features ∧
  (dep.encodable sv d.name none).features = d.features ∧
  (dep.encodable sv d.name none).target = d.target ∧
  (dep.encodable sv d.name none).kind = d.kind.getD Kind.Normal

/-- A concrete instance of the requirement-parser model for evaluation:
requirements are their own canonical strings. -/
def svString : Semver String :=
  { parse := fun s => some s
    toString := fun s => s
    star := "*" }

/-- Concrete crate table for evaluation: the single crate serde with id 1. -/
def cratesW : List Crate := [{ id := 1, name := "serde" }]

/-- A valid concrete declaration of serde with a caret requirement. -/
def declSerde : CrateDependency String :=
  { optional := false
    default_features := true
    name := "serde"
    features := ["std"]
    version_req := "^1.0"
    target := none
    kind := some Kind.Normal }

/-- A concrete declaration of serde carrying the wildcard requirement. -/
def declSerdeStar : CrateDependency String :=
  { declSerde with version_req := "*" }

/-- A concrete declaration naming a crate absent from the table. -/
def declBogus : CrateDependency String :=
  { optional := false
    default_features := true
    name := "bogus-pkg"
    features := []
    version_req := "1.0"
    target := none
    kind := none }

/-- The prepared row for declSerde against cratesW with version id 5. -/
def ndSerde : NewDependency :=
  { version_id := 5
    crate_id := 1
    req := "^1.0"
    optional := false
    default_features := true
    features := ["std"]
    target := none
    kind := 0 }

/-- A concrete stored row carrying the out-of-range kind code 3. -/
def rowKind3 : Row :=
  { id := 1
    version_id := 5
    crate_id := 1
    req := "^1.0"
    optional := false
    default_features := true
    features := []
    target := none
    kind := 3 }

/-- Decoding is a left inverse of the kind storage code. -/
theorem decodeKind_code (k : Kind) : decodeKind k.code = some k := by
  cases k <;> rfl

/-- A declaration whose name matches no crate in the resolved table makes
validateDep produce the unknown-crate error. -/
theorem validateDep_unknown [DecidableEq Req] (sv : Semver Req) (crates : List Crate)
    (vid : Int) (d : CrateDependency Req) (h : ∀ c ∈ crates, c.name ≠ d.name) :
    validateDep sv crates vid d = Except.error (DepError.unknownCrate d.name) := by
  have hf : crates.find? (fun c => d.name == c.name) = none := by
    rw [List.find?_eq_none]
    intro c hc
    simp only [beq_iff_eq]
    exact fun hn => h c hc hn.symm
  simp [validateDep, hf]

/-- A declaration that resolves and carries the wildcard requirement makes
validateDep produce the wildcard error. -/
theorem validateDep_wild [DecidableEq Req] (sv : Semver Req) (crates : List Crate)
    (vid : Int) (d : CrateDependency Req) (c : Crate)
    (hf : crates.find? (fun x => d.name == x.name) = some c)
    (hw : d.version_req = sv.star) :
    validateDep sv crates vid d = Except.error DepError.wildcard := by
  simp [validateDep, hf, hw]

/-- A declaration that resolves with a non-wildcard requirement makes
validateDep produce the prepared row. -/
theorem validateDep_found [DecidableEq Req] (sv : Semver Req) (crates : List Crate)
    (vid : Int) (d : CrateDependency Req) (c : Crate)
    (hf : crates.find? (fun x => d.name == x.name) = some c)
    (hw : d.version_req ≠ sv.star) :
    validateDep sv crates vid d = Except.ok
      { version_id := vid
        crate_id := c.id
        req := sv.toString d.version_req
        kind := (d.kind.getD Kind.Normal).code
        optional := d.optional
        default_features := d.default_features
        features := d.features
        target := d.target } := by
  simp [validateDep, hf, hw]

/-- A resolvable declared name is found by the exact-name search. -/
theorem find_of_resolvable (crates : List Crate) (d : CrateDependency Req)
    (h : ∃ c ∈ crates, c.name = d.name) :
    ∃ c, crates.find? (fun x => d.name == x.name) = some c := by
  have hs : (crates.find? (fun x => d.name == x.name)).isSome := by
    rw [List.find?_isSome]
    obtain ⟨c, hc, hn⟩ := h
    exact ⟨c, hc, by simp [hn]⟩
  exact Option.isSome_iff_exists.mp hs

/-- A resolvable, non-wildcard declaration validates to some prepared row. -/
theorem validateDep_ok_of_valid [DecidableEq Req] (sv : Semver Req) (crates : List Crate)
    (vid : Int) (p : CrateDependency Req)
    (h1 : ∃ c ∈ crates, c.name = p.name) (h2 : p.version_req ≠ sv.star) :
    ∃ nd, validateDep sv crates vid p = Except.ok nd := by
  obtain ⟨c, hc⟩ := find_of_resolvable crates p h1
  exact ⟨_, validateDep_found sv crates vid p c hc h2⟩

/-- Collecting a list whose prefix is all ok and whose next element is an
error yields that error. -/
theorem collectResult_append_error {ε α : Type} (pre : List (Except ε α)) (e : ε)
    (post : List (Except ε α)) (hpre : ∀ x ∈ pre, ∃ a, x = Except.ok a) :
    collectResult (pre ++ Except.error e :: post) = Except.error e := by
  induction pre with
  | nil => rfl
  | cons x xs ih =>
    obtain ⟨a, ha⟩ := hpre x (by simp)
    subst ha
    have hxs := ih (fun y hy => hpre y (by simp [hy]))
    simp [collectResult, hxs]

/-- A successful collection means every element was ok. -/
theorem collectResult_ok_forall {ε α : Type} (l : List (Except ε α)) (as : List α)
    (h : collectResult l = Except.ok as) : ∀ x ∈ l, ∃ a, x = Except.ok a := by
  induction l generalizing as with
  | nil => intro x hx; cases hx
  | cons x xs ih =>
    intro y hy
    cases x with
    | error e => simp [collectResult] at h
    | ok a =>
      rcases List.mem_cons.mp hy with h1 | h2
      · exact ⟨a, h1⟩
      · cases hxs : collectResult xs with
        | error e => rw [collectResult, hxs] at h; cases h
        | ok as2 => exact ih as2 hxs y h2

/-- Every valid declaration in a prefix maps to an ok validation result. -/
theorem mapValidate_ok [DecidableEq Req] (sv : Semver Req) (crates : List Crate)
    (vid : Int) (pre : List (CrateDependency Req))
    (hpre : ∀ p ∈ pre, (∃ c ∈ crates, c.name = p.name) ∧ p.version_req ≠ sv.star) :
    ∀ x ∈ pre.map (validateDep sv crates vid), ∃ a, x = Except.ok a := by
  intro x hx
  obtain ⟨p, hp, rfl⟩ := List.mem_map.mp hx
  obtain ⟨h1, h2⟩ := hpre p hp
  exact validateDep_ok_of_valid sv crates vid p h1 h2

/-- When every declaration before d is valid and d itself validates to an
error, the whole batch returns that error. -/
theorem add_dependencies_error_at [DecidableEq Req] (sv : Semver Req) (crates : List Crate)
    (pre post : List (CrateDependency Req)) (d : CrateDependency Req) (vid : Int)
    (e : DepError)
    (hpre : ∀ p ∈ pre, (∃ c ∈ crates, c.name = p.name) ∧ p.version_req ≠ sv.star)
    (hd : validateDep sv crates vid d = Except.error e) :
    add_dependencies sv crates (pre ++ d :: post) vid = Except.error e := by
  unfold add_dependencies
  rw [List.map_append, List.map_cons, hd]
  exact collectResult_append_error _ e _ (mapValidate_ok sv crates vid pre hpre)

/-- C1 (amended): a batch containing a declaration whose name matches no
stored crate name exactly fails as a whole and prepares no rows for
persistence; when every declaration preceding it is valid (resolvable and
non-wildcard), the returned error is the unknown-crate error naming that
declaration. -/
theorem add_dependencies_unknown_name [DecidableEq Req] (sv : Semver Req)
    (crates : List Crate) (pre post decls : List (CrateDependency Req))
    (d : CrateDependency Req) (vid : Int)
    (hpre : ∀ p ∈ pre, (∃ c ∈ crates, c.name = p.name) ∧ p.version_req ≠ sv.star)
    (hd : ∀ c ∈ crates, c.name ≠ d.name)
    (hmem : d ∈ decls) :
    add_dependencies sv crates (pre ++ d :: post) vid =
      Except.error (DepError.unknownCrate d.name) ∧
    ∀ l, add_dependencies sv crates decls vid ≠ Except.ok l := by
  constructor
  · exact add_dependencies_error_at sv crates pre post d vid _ hpre
      (validateDep_unknown sv crates vid d hd)
  · intro l hl
    unfold add_dependencies at hl
    obtain ⟨a, ha⟩ := collectResult_ok_forall _ l hl (validateDep sv crates vid d)
      (List.mem_map_of_mem _ hmem)
    rw [validateDep_unknown sv crates vid d hd] at ha
    cases ha

/-- Witness for C1: a batch of the valid serde declaration followed by the
unknown bogus-pkg declaration fails naming bogus-pkg and yields no rows. -/
theorem add_dependencies_unknown_name_witness :
    (∀ c ∈ cratesW, c.name ≠ declBogus.name) ∧
    (add_dependencies svString cratesW ([declSerde] ++ declBogus :: []) 6 =
       Except.error (DepError.unknownCrate declBogus.name) ∧
     ∀ l, add_dependencies svString cratesW [declSerde, declBogus] 6 ≠ Except.ok l) :=
  ⟨by decide,
   add_dependencies_unknown_name svString cratesW [declSerde] [] [declSerde, declBogus]
     declBogus 6 (by decide) (by decide) (by decide)⟩

/-- Counterexample for C1 as stated: the batch of a resolvable wildcard serde
declaration followed by the unknown bogus-pkg declaration contains a
declaration whose name matches no stored crate, yet the whole batch fails
with the wildcard error, which names no package. -/
theorem add_dependencies_unknown_name_counterexample :
    (∀ c ∈ cratesW, c.name ≠ declBogus.name) ∧
    add_dependencies svString cratesW [declSerdeStar, declBogus] 5 =
      Except.error DepError.wildcard ∧
    ∀ name, add_dependencies svString cratesW [declSerdeStar, declBogus] 5 ≠
      Except.error (DepError.unknownCrate name) := by
  have h : add_dependencies svString cratesW [declSerdeStar, declBogus] 5 =
      Except.error DepError.wildcard := rfl
  refine ⟨by decide, h, ?_⟩
  intro name hn
  rw [h] at hn
  simp at hn

/-- When every declaration before a resolvable wildcard declaration is itself
resolvable, the batch returns the wildcard error. -/
theorem add_dependencies_wildcard_pre [DecidableEq Req] (sv : Semver Req)
    (crates : List Crate) (vid : Int) (post : List (CrateDependency Req))
    (d : CrateDependency Req)
    (hd : ∃ c ∈ crates, c.name = d.name) (hw : d.version_req = sv.star) :
    ∀ pre : List (CrateDependency Req), (∀ p ∈ pre, ∃ c ∈ crates, c.name = p.name) →
      add_dependencies sv crates (pre ++ d :: post) vid =
        Except.error DepError.wildcard := by
  intro pre
  induction pre with
  | nil =>
    intro _
    obtain ⟨c, hc⟩ := find_of_resolvable crates d hd
    have hv := validateDep_wild sv crates vid d c hc hw
    simp [add_dependencies, collectResult, hv]
  | cons p ps ih =>
    intro hpre
    obtain ⟨c, hc⟩ := find_of_resolvable crates p (hpre p (by simp))
    have ihe := ih (fun q hq => hpre q (by simp [hq]))
    rw [List.cons_append]
    unfold add_dependencies at ihe ⊢
    rw [List.map_cons]
    by_cases hpw : p.version_req = sv.star
    · have hv := validateDep_wild sv crates vid p c hc hpw
      rw [hv]
      simp [collectResult]
    · have hv := validateDep_found sv crates vid p c hc hpw
      rw [hv]
      simp only [List.map_append, List.map_cons] at ihe
      simp [collectResult, ihe]

/-- C2 (amended): a batch containing a declaration whose requirement is the
wildcard constraint and whose name resolves fails as a whole and prepares no
rows, regardless of the validity of later declarations; the returned error is
the disallowed-constraint error provided every earlier declaration's name
resolves. -/
theorem add_dependencies_wildcard_req [DecidableEq Req] (sv : Semver Req)
    (crates : List Crate) (pre post decls : List (CrateDependency Req))
    (d : CrateDependency Req) (vid : Int)
    (hpre : ∀ p ∈ pre, ∃ c ∈ crates, c.name = p.name)
    (hd : ∃ c ∈ crates, c.name = d.name)
    (hw : d.version_req = sv.star)
    (hmem : d ∈ decls) :
    add_dependencies sv crates (pre ++ d :: post) vid = Except.error DepError.wildcard ∧
    ∀ l, add_dependencies sv crates decls vid ≠ Except.ok l := by
  constructor
  · exact add_dependencies_wildcard_pre sv crates vid post d hd hw pre hpre
  · intro l hl
    unfold add_dependencies at hl
    obtain ⟨a, ha⟩ := collectResult_ok_forall _ l hl (validateDep sv crates vid d)
      (List.mem_map_of_mem _ hmem)
    obtain ⟨c, hc⟩ := find_of_resolvable crates d hd
    rw [validateDep_wild sv crates vid d c hc hw] at ha
    cases ha

/-- Witness for C2: a batch of the valid serde declaration, the wildcard serde
declaration, and the invalid bogus-pkg declaration fails with the wildcard
error and yields no rows. -/
theorem add_dependencies_wildcard_req_witness :
    declSerdeStar.version_req = svString.star ∧
    (add_dependencies svString cratesW ([declSerde] ++ declSerdeStar :: [declBogus]) 7 =
       Except.error DepError.wildcard ∧
     ∀ l, add_dependencies svString cratesW [declSerde, declSerdeStar, declBogus] 7 ≠
       Except.ok l) :=
  ⟨rfl,
   add_dependencies_wildcard_req svString cratesW [declSerde] [declBogus]
     [declSerde, declSerdeStar, declBogus] declSerdeStar 7 (by decide) (by decide) rfl
     (by decide)⟩

/-- Counterexample for C2 as stated: the batch of the unknown bogus-pkg
declaration followed by the resolvable wildcard serde declaration contains a
resolvable wildcard declaration, yet the whole batch fails with the
unknown-crate error for bogus-pkg, not the disallowed-constraint error. -/
theorem add_dependencies_wildcard_req_counterexample :
    (∃ c ∈ cratesW, c.name = declSerdeStar.name) ∧
    declSerdeStar.version_req = svString.star ∧
    add_dependencies svString cratesW [declBogus, declSerdeStar] 5 =
      Except.error (DepError.unknownCrate "bogus-pkg") ∧
    add_dependencies svString cratesW [declBogus, declSerdeStar] 5 ≠
      Except.error DepError.wildcard := by
  have h : add_dependencies svString cratesW [declBogus, declSerdeStar] 5 =
      Except.error (DepError.unknownCrate "bogus-pkg") := rfl
  refine ⟨by decide, rfl, h, ?_⟩
  intro hn
  rw [h] at hn
  simp at hn

/-- C6: add_dependencies is fail-fast in input order: when every declaration
before d is valid, the batch returns the error of d, and within d the
unknown-name check precedes the wildcard-requirement check (an unresolvable
name yields the unknown-crate error whether or not the requirement is the
wildcard); any such error means no row list is produced for the insert. -/
theorem add_dependencies_fail_fast [DecidableEq Req] (sv : Semver Req) (crates : List Crate)
    (pre post : List (CrateDependency Req)) (d : CrateDependency Req) (vid : Int)
    (hpre : ∀ p ∈ pre, (∃ c ∈ crates, c.name = p.name) ∧ p.version_req ≠ sv.star) :
    ((∀ c ∈ crates, c.name ≠ d.name) →
      add_dependencies sv crates (pre ++ d :: post) vid =
        Except.error (DepError.unknownCrate d.name)) ∧
    ((∃ c ∈ crates, c.name = d.name) → d.version_req = sv.star →
      add_dependencies sv crates (pre ++ d :: post) vid =
        Except.error DepError.wildcard) := by
  constructor
  · intro hd
    exact add_dependencies_error_at sv crates pre post d vid _ hpre
      (validateDep_unknown sv crates vid d hd)
  · intro hd hw
    obtain ⟨c, hc⟩ := find_of_resolvable crates d hd
    exact add_dependencies_error_at sv crates pre post d vid _ hpre
      (validateDep_wild sv crates vid d c hc hw)

/-- Witness for C6: after the valid serde declaration, an unresolvable
declaration that also carries the wildcard requirement yields the
unknown-crate error, showing the name check is applied first. -/
theorem add_dependencies_fail_fast_witness :
    (∀ p ∈ [declSerde], (∃ c ∈ cratesW, c.name = p.name) ∧ p.version_req ≠ svString.star) ∧
    add_dependencies svString cratesW
        ([declSerde] ++ { declBogus with version_req := "*" } :: []) 5 =
      Except.error (DepError.unknownCrate "bogus-pkg") :=
  ⟨by decide,
   (add_dependencies_fail_fast svString cratesW [declSerde] []
      { declBogus with version_req := "*" } 5 (by decide)).1 (by decide)⟩

/-- C4: for every stored row whose requirement string fails to re-parse, or
whose kind code is outside the set of codes zero, one and two, both read paths
(Queryable::build and Model::from_row) are a hard fault: no record is built,
the value is never coerced and the kind is never defaulted. -/
theorem read_row_hard_fault (sv : Semver Req) (row : Row)
    (h : sv.parse row.req = none ∨ (row.kind ≠ 0 ∧ row.kind ≠ 1 ∧ row.kind ≠ 2)) :
    Dependency.build sv row = none ∧ Dependency.from_row sv row = none := by
  rcases h with h | ⟨h0, h1, h2⟩
  · exact ⟨by simp [Dependency.build, h], by simp [Dependency.from_row, h]⟩
  · have hk : decodeKind row.kind = none := by simp [decodeKind, h0, h1, h2]
    cases hp : sv.parse row.req with
    | none => exact ⟨by simp [Dependency.build, hp], by simp [Dependency.from_row, hp]⟩
    | some r =>
      exact ⟨by simp [Dependency.build, hp, hk], by simp [Dependency.from_row, hp, hk]⟩

/-- Witness for C4: the concrete row with kind code 3 builds no record on
either read path. -/
theorem read_row_hard_fault_witness :
    (rowKind3.kind ≠ 0 ∧ rowKind3.kind ≠ 1 ∧ rowKind3.kind ≠ 2) ∧
    Dependency.build svString rowKind3 = none ∧
    Dependency.from_row svString rowKind3 = none :=
  ⟨by decide, read_row_hard_fault svString rowKind3 (Or.inr (by decide))⟩

/-- C5: omitting the kind of a declaration is treated identically to
explicitly specifying Normal: the per-declaration validation of
add_dependencies gives equal results on the two declarations (hence equal
prepared rows and equal downstream index and API encodings), and a successful
validation of the kind-omitted declaration stores kind code 0. -/
theorem validateDep_kind_default [DecidableEq Req] (sv : Semver Req) (crates : List Crate)
    (vid : Int) (d : CrateDependency Req) :
    validateDep sv crates vid { d with kind := none } =
      validateDep sv crates vid { d with kind := some Kind.Normal } ∧
    ∀ nd, validateDep sv crates vid { d with kind := none } = Except.ok nd →
      nd.kind = 0 := by
  constructor
  · rfl
  · intro nd h
    unfold validateDep at h
    split at h
    · cases h
    · split at h
      · cases h
      · cases h
        rfl

/-- Witness for C5: the serde declaration with its kind omitted validates the
same as with kind Normal, and its prepared row stores kind code 0. -/
theorem validateDep_kind_default_witness :
    validateDep svString cratesW 5 { declSerde with kind := none } =
      validateDep svString cratesW 5 { declSerde with kind := some Kind.Normal } ∧
    ndSerde.kind = 0 :=
  ⟨(validateDep_kind_default svString cratesW 5 declSerde).1,
   (validateDep_kind_default svString cratesW 5 declSerde).2 ndSerde rfl⟩

/-- C7: the reverse encoding takes its name and downloads from the owning
(dependent) crate attached to the ReverseDependency, and every remaining
field from the underlying dependency record. -/
theorem reverse_encodable_owning (sv : Semver Req) (r : ReverseDependency Req) :
    (r.encodable sv).crate_id = r.crate_name ∧
    (r.encodable sv).downloads = r.crate_downloads ∧
    (r.encodable sv).id = r.dependency.id ∧
    (r.encodable sv).version_id = r.dependency.version_id ∧
    (r.encodable sv).req = sv.toString r.dependency.req ∧
    (r.encodable sv).optional = r.dependency.optional ∧
    (r.encodable sv).default_features = r.dependency.default_features ∧
    (r.encodable sv).features = r.dependency.features ∧
    (r.encodable sv).target = r.dependency.target ∧
    (r.encodable sv).kind = r.dependency.kind :=
  ⟨rfl, rfl, rfl, rfl, rfl, rfl, rfl, rfl, rfl, rfl⟩

/-- C8: the API encoding renders an absent downloads figure as the number
zero, never as a missing marker, and renders a supplied figure unchanged. -/
theorem encodable_downloads_default (sv : Semver Req) (d : Dependency Req) (name : String) :
    (d.encodable sv name none).downloads = 0 ∧
    ∀ dl : Int, (d.encodable sv name (some dl)).downloads = dl :=
  ⟨rfl, fun _ => rfl⟩

/-- C9: the index encoding always wraps the kind of the record as present,
for every record and hence for all three kinds including Normal. -/
theorem git_encode_kind_present (sv : Semver Req) (d : Dependency Req) (name : String) :
    (d.git_encode sv name).kind = some d.kind :=
  rfl

/-- Reading back an inserted row succeeds and reproduces the prepared fields
when the canonical requirement string re-parses to the original requirement. -/
theorem build_insertRow (sv : Semver Req) (nd : NewDependency) (i : Int) (r : Req) (k : Kind)
    (hreq : nd.req = sv.toString r) (hk : nd.kind = k.code)
    (hp : sv.parse (sv.toString r) = some r) :
    Dependency.build sv (insertRow nd i) = some
      { id := i
        version_id := nd.version_id
        crate_id := nd.crate_id
        req := r
        optional := nd.optional
        default_features := nd.default_features
        features := nd.features
        target := nd.target
        kind := k } := by
  simp [Dependency.build, insertRow, hreq, hk, hp, decodeKind_code]

/-- C3: for every batch of valid declarations (each name resolving by exact
match, each requirement non-wildcard, each canonical requirement string
re-parsing to the submitted requirement), add_dependencies prepares one row
per declaration, persisting under any storage-assigned ids succeeds, and the
API encoding of each resulting record, rendered with the declared name,
reproduces the submitted name, requirement string, optional and
default-features flags, feature list, target, and kind (defaulted to Normal
when omitted) of its declaration, in order. -/
theorem add_dependencies_persist_roundtrip [DecidableEq Req] (sv : Semver Req)
    (crates : List Crate) (decls : List (CrateDependency Req)) (vid : Int) (ids : List Int)
    (hres : ∀ d ∈ decls, ∃ c ∈ crates, c.name = d.name)
    (hstar : ∀ d ∈ decls, d.version_req ≠ sv.star)
    (hparse : ∀ d ∈ decls, sv.parse (sv.toString d.version_req) = some d.version_req)
    (hlen : ids.length = decls.length) :
    ∃ nds deps,
      add_dependencies sv crates decls vid = Except.ok nds ∧
      persist sv nds ids = some deps ∧
      List.Forall₂ (roundTrips sv) deps decls := by
  induction decls generalizing ids with
  | nil => exact ⟨[], [], rfl, rfl, List.Forall₂.nil⟩
  | cons d ds ih =>
    rcases ids with _ | ⟨i, is⟩
    · simp at hlen
    · have hlen' : is.length = ds.length := by simpa using hlen
      obtain ⟨c, hc⟩ := find_of_resolvable crates d (hres d (by simp))
      have hwd : d.version_req ≠ sv.star := hstar d (by simp)
      have hv := validateDep_found sv crates vid d c hc hwd
      obtain ⟨nds, deps, hadd, hper, hfa⟩ :=
        ih is (fun p hp => hres p (by simp [hp])) (fun p hp => hstar p (by simp [hp]))
          (fun p hp => hparse p (by simp [hp])) hlen'
      have hb := build_insertRow sv
        { version_id := vid
          crate_id := c.id
          req := sv.toString d.version_req
          kind := (d.kind.getD Kind.Normal).code
          optional := d.optional
          default_features := d.default_features
          features := d.features
          target := d.target } i d.version_req (d.kind.getD Kind.Normal) rfl rfl
        (hparse d (by simp))
      refine ⟨{ version_id := vid
                crate_id := c.id
                req := sv.toString d.version_req
                kind := (d.kind.getD Kind.Normal).code
                optional := d.optional
                default_features := d.default_features
                features := d.features
                target := d.target } :: nds,
              { id := i
                version_id := vid
                crate_id := c.id
                req := d.version_req
                optional := d.optional
                default_features := d.default_features
                features := d.features
                target := d.target
                kind := d.kind.getD Kind.Normal } :: deps,
              ?_, ?_, List.Forall₂.cons ?_ hfa⟩
      · unfold add_dependencies at hadd ⊢
        rw [List.map_cons, hv]
        simp [collectResult, hadd]
      · unfold persist at hper ⊢
        simp only [List.zip_cons_cons, List.map_cons]
        simp [collectOption, hb, hper]
      · exact ⟨rfl, rfl, rfl, rfl, rfl, rfl, rfl⟩

/-- Witness for C3: the single valid serde declaration validates, persists
under storage id 10, and its API encoding round-trips the declaration. -/
theorem add_dependencies_persist_roundtrip_witness :
    (∀ d ∈ [declSerde], ∃ c ∈ cratesW, c.name = d.name) ∧
    (∀ d ∈ [declSerde], d.version_req ≠ svString.star) ∧
    (∀ d ∈ [declSerde], svString.parse (svString.toString d.version_req) = some d.version_req) ∧
    ∃ nds deps,
      add_dependencies svString cratesW [declSerde] 5 = Except.ok nds ∧
      persist svString nds [10] = some deps ∧
      List.Forall₂ (roundTrips svString) deps [declSerde] :=
  ⟨by decide, by decide, by decide,
   add_dependencies_persist_roundtrip svString cratesW [declSerde] 5 [10]
     (by decide) (by decide) (by decide) rfl⟩

/-- C10: the integer encoding of kinds round-trips: decoding the storage code
of any kind through the row-read match yields that kind again. -/
theorem kind_code_roundtrip (k : Kind) : decodeKind k.code = some k := by
  cases k <;> rfl

end CratesIo
